import Mathlib

/-!
Shallow embedding of the generation-request composer (`GeneratePageModal` in
`src/unnamed/part_000`) and the rate-limit configuration
(`src/unnamed/part_001`) of the make-comics repository.

The component state is the React state of the modal:
`prompt`, `uploadedFiles`, `previews`, `showPreview`, `isGenerating`,
plus the value of the hidden file-input control.  The external
collaborators (file validation, preview generation, S3 upload, the
caller-supplied `onGenerate` handler) are passed as function parameters.
A thrown JavaScript value is modelled by `JsError`: it either is an
`Error` instance carrying a message or some other value.
-/

/-- A thrown JavaScript value: either an `Error` instance (which carries a
`message`) or any other value (no message available). -/
inductive JsError where
  | errObj (message : String)
  | nonError
deriving DecidableEq, Repr

/-- The description put in the failure toast of `handleGenerate`
(`src/unnamed/part_000`, lines 212-215):
`error instanceof Error ? error.message : "Failed to generate page. Please try again."`. -/
def errorDescription : JsError → String
  | .errObj m => m
  | .nonError => "Failed to generate page. Please try again."

/-- One toast notification as fired through `useToast` (title, description,
variant, duration). -/
structure Toast where
  title : String
  description : String
  variant : String
  duration : Nat
deriving DecidableEq, Repr

/-- One invocation of the caller-supplied `onGenerate` handler:
`{ prompt, characterUrls? }` where `characterUrls` is an optional list of
URLs (`none` models the JavaScript `undefined`). -/
structure GenerateCall where
  prompt : String
  characterUrls : Option (List String)
deriving DecidableEq, Repr

/-- The React state of `GeneratePageModal` (`src/unnamed/part_000`,
lines 117-122), together with the value of the hidden file-input control
(`fileInputRef.current.value`). -/
structure ModalState (File Preview : Type) where
  prompt : String
  uploadedFiles : List File
  previews : List Preview
  showPreview : Option Nat
  isGenerating : Bool
  fileInputValue : String
deriving DecidableEq, Repr

/-- The reset effect that runs when the modal opens (`src/unnamed/part_000`,
lines 127-135): prompt becomes the existing prompt in redraw mode and `""`
otherwise; files, previews, the preview viewer and the in-flight flag are
cleared. -/
def resetOnOpen {File Preview : Type} (isRedrawMode : Bool)
    (existingPrompt : String) (s : ModalState File Preview) :
    ModalState File Preview :=
  { s with
    prompt := if isRedrawMode then existingPrompt else ""
    uploadedFiles := []
    previews := []
    showPreview := none
    isGenerating := false }

/-- Modelled from the spec: `validateFileForUpload` lives in
`@/lib/file-utils`, which is not part of the provided sources.  The spec
describes it as an external validation collaborator
`validate(file, isImage) -> {valid, error?}` whose invalid results each
carry a human-readable reason.  It is modelled as a function from a file
to `Option String`: `none` means valid, `some e` means invalid with
reason `e`. -/
def ValidationOracle (File : Type) := File → Option String

/-- The result of `handleFiles`: the new component state and the toasts
fired during the call. -/
structure FilesResult (File Preview : Type) where
  state : ModalState File Preview
  toasts : List Toast
deriving DecidableEq, Repr

/-- `handleFiles` (`src/unnamed/part_000`, lines 147-181), with the
asynchronous preview generation collapsed to its final effect (the race
between overlapping batches is modelled separately by `asyncStep`):

* a `null` file list is a no-op;
* every candidate is validated; each invalid candidate with an error
  message fires a destructive toast and is dropped;
* if no candidate is valid the call stops there;
* otherwise the valid candidates are appended to the current list, the
  result is truncated to the first 2 entries, and previews are recomputed
  for the whole resulting list. -/
def handleFiles {File Preview : Type} (validate : ValidationOracle File)
    (generateFilePreview : File → Preview) (s : ModalState File Preview)
    (newFiles : Option (List File)) : FilesResult File Preview :=
  match newFiles with
  | none => ⟨s, []⟩
  | some filesArray =>
    let toasts := filesArray.filterMap fun file =>
      (validate file).map fun e =>
        Toast.mk "Invalid file" e "destructive" 4000
    let validFiles := filesArray.filter fun file => (validate file).isNone
    if validFiles.isEmpty then ⟨s, toasts⟩
    else
      let totalFiles := (s.uploadedFiles ++ validFiles).take 2
      let newPreviews := totalFiles.map generateFilePreview
      ⟨{ s with uploadedFiles := totalFiles, previews := newPreviews },
        toasts⟩

/-- A whole sequence of add-files operations, folding `handleFiles` over a
list of batches (each batch an `Option (List File)` like the DOM
`FileList | null`). -/
def addFilesSeq {File Preview : Type} (validate : ValidationOracle File)
    (generateFilePreview : File → Preview) (s : ModalState File Preview)
    (batches : List (Option (List File))) : ModalState File Preview :=
  batches.foldl
    (fun st b => (handleFiles validate generateFilePreview st b).state) s

/-- The JavaScript `array.filter((_, i) => i !== index)` used by
`removeFile`: keeps every element whose position differs from `index`.
The index is an `Int` because the source accepts any number. -/
def filterIdxNe {α : Type} (index : Int) (xs : List α) : List α :=
  (xs.enum.filter fun p => (p.1 : Int) ≠ index).map fun p => p.2

/-- `removeFile` (`src/unnamed/part_000`, lines 183-192): filters position
`index` out of both lists, closes the preview viewer and clears the
file-input control. -/
def removeFile {File Preview : Type} (index : Int)
    (s : ModalState File Preview) : ModalState File Preview :=
  { s with
    uploadedFiles := filterIdxNe index s.uploadedFiles
    previews := filterIdxNe index s.previews
    showPreview := none
    fileInputValue := "" }

/-- `Promise.all` over the uploads (`src/unnamed/part_000`, lines 200-202):
succeeds with the list of URLs in attachment order when every upload
succeeds, and rejects with an upload's error as soon as any upload
rejects. -/
def promiseAll {File : Type} (upload : File → Except JsError String) :
    List File → Except JsError (List String)
  | [] => .ok []
  | f :: fs =>
    match upload f with
    | .error e => .error e
    | .ok u =>
      match promiseAll upload fs with
      | .error e => .error e
      | .ok us => .ok (u :: us)

/-- JavaScript's `String.prototype.trim` as used by `!prompt.trim()`:
removes leading and trailing whitespace.  Implemented on the character
list so that it evaluates inside the kernel (the built-in `String.trim`
does not reduce definitionally). -/
def jsTrim (s : String) : String :=
  String.mk (((s.data.dropWhile Char.isWhitespace).reverse.dropWhile
    Char.isWhitespace).reverse)

/-- The observable outcome of one `handleGenerate` call: the final
component state, the uploads started, the handler invocations made and
the toasts fired. -/
structure GenResult (File Preview : Type) where
  state : ModalState File Preview
  uploadsStarted : List File
  handlerCalls : List GenerateCall
  toasts : List Toast
deriving DecidableEq, Repr

/-- `handleGenerate` (`src/unnamed/part_000`, lines 194-221):

* returns immediately when the trimmed prompt is empty;
* otherwise sets `isGenerating := true`, starts an upload for every
  attachment and awaits them jointly;
* on joint success invokes `onGenerate` once with the prompt and, when at
  least one URL was produced, the URLs in attachment order (otherwise the
  field is `undefined`);
* any rejection (upload or handler) is caught: a destructive toast is
  fired with `errorDescription` of the thrown value and
  `isGenerating := false`; note that the success path leaves
  `isGenerating` at `true` (there is no reset after `await onGenerate`). -/
def handleGenerate {File Preview : Type}
    (upload : File → Except JsError String)
    (onGenerate : GenerateCall → Except JsError Unit)
    (s : ModalState File Preview) : GenResult File Preview :=
  if jsTrim s.prompt = "" then ⟨s, [], [], []⟩
  else
    let s1 := { s with isGenerating := true }
    match promiseAll upload s.uploadedFiles with
    | .error e =>
      ⟨{ s1 with isGenerating := false }, s.uploadedFiles, [],
        [Toast.mk "Generation failed" (errorDescription e) "destructive"
          4000]⟩
    | .ok characterUrls =>
      let call : GenerateCall :=
        ⟨s.prompt,
          if characterUrls.length > 0 then some characterUrls else none⟩
      match onGenerate call with
      | .ok _ => ⟨s1, s.uploadedFiles, [call], []⟩
      | .error e =>
        ⟨{ s1 with isGenerating := false }, s.uploadedFiles, [call],
          [Toast.mk "Generation failed" (errorDescription e) "destructive"
            4000]⟩

/-- The submit button (`src/unnamed/part_000`, lines 347-351): clicking it
runs `handleGenerate` unless the button is disabled, and it is disabled
exactly when the trimmed prompt is empty or a submission is in flight
(`disabled={!prompt.trim() || isGenerating}`). -/
def submitViaButton {File Preview : Type}
    (upload : File → Except JsError String)
    (onGenerate : GenerateCall → Except JsError Unit)
    (s : ModalState File Preview) : GenResult File Preview :=
  if jsTrim s.prompt = "" ∨ s.isGenerating then ⟨s, [], [], []⟩
  else handleGenerate upload onGenerate s

/-- The keyboard shortcut (`src/unnamed/part_000`, lines 138-145): the
callback runs `handleGenerate` only when the modal is open, no submission
is in flight and the trimmed prompt is non-empty (and the hook itself is
disabled when closed or generating). -/
def submitViaShortcut {File Preview : Type}
    (upload : File → Except JsError String)
    (onGenerate : GenerateCall → Except JsError Unit)
    (isOpen : Bool) (s : ModalState File Preview) :
    GenResult File Preview :=
  if isOpen = true ∧ s.isGenerating = false ∧ jsTrim s.prompt ≠ "" then
    handleGenerate upload onGenerate s
  else ⟨s, [], [], []⟩

/-- Rate-limiting algorithms offered by the limiter library. -/
inductive LimiterAlgorithm where
  | fixedWindow
  | slidingWindow
  | tokenBucket
deriving DecidableEq, Repr

/-- The configuration handed to the `Ratelimit` constructor: the chosen
algorithm with its quota (`tokens` operations per window of
`windowSeconds` seconds), the analytics flag and the key namespace. -/
structure RatelimitConfig where
  algorithm : LimiterAlgorithm
  tokens : Nat
  windowSeconds : Nat
  analytics : Bool
  keyNamespace : String
deriving DecidableEq, Repr

/-- `freeTierRateLimit` (`src/unnamed/part_001`, lines 9-15):
`Ratelimit.fixedWindow(3, "7 d")` — a fixed-window limiter with 3 tokens
per 7-day window (`"7 d"` = 7 × 86400 seconds), analytics on, key
namespace `ratelimit:free-comics`. -/
def freeTierRateLimit : RatelimitConfig :=
  { algorithm := .fixedWindow
    tokens := 3
    windowSeconds := 7 * 86400
    analytics := true
    keyNamespace := "ratelimit:free-comics" }

/-!
Interleaving model for the asynchronous part of `handleFiles`.

In the source (`src/unnamed/part_000`, lines 174-180) the attachment list
is updated first (`setUploadedFiles(totalFiles)`), then the previews for
the captured `totalFiles` list are computed asynchronously and written
unconditionally when they resolve (`await Promise.all(...);
setPreviews(newPreviews)`).  Nothing cancels or discards a pending batch
when the attachment list changes in the meantime (by `removeFile` or
another `handleFiles` call).  `AsyncState` makes the pending batches
explicit and `asyncStep` runs one event of the UI event loop. -/

/-- Attachment/preview state with the in-flight preview computations made
explicit: each entry of `pending` is the `totalFiles` list captured by a
`handleFiles` call whose `Promise.all` has not resolved yet. -/
structure AsyncState (File Preview : Type) where
  files : List File
  previews : List Preview
  pending : List (List File)
deriving DecidableEq, Repr

/-- One event of the UI event loop acting on the attachment/preview
state: the synchronous prefix of an add-files call (with its already
validated, non-empty batch of valid candidates), the resolution of the
`i`-th in-flight preview computation, or a remove click. -/
inductive UiEvent (File : Type) where
  | startAdd (valid : List File)
  | finishBatch (i : Nat)
  | remove (index : Int)
deriving DecidableEq, Repr

/-- Semantics of one `UiEvent`, translated from the source:

* `startAdd valid` runs lines 174-176 (`totalFiles := (files ++
  valid).take 2; setUploadedFiles`) and registers the preview computation
  for the captured `totalFiles` as pending;
* `finishBatch i` is the `i`-th pending `Promise.all` resolving: line 180
  writes `setPreviews` with the previews of the captured list,
  unconditionally (the source has no staleness guard);
* `remove index` is `removeFile`, which filters both lists but leaves the
  pending computations running. -/
def asyncStep {File Preview : Type} (generateFilePreview : File → Preview)
    (s : AsyncState File Preview) (e : UiEvent File) :
    AsyncState File Preview :=
  match e with
  | .startAdd valid =>
    let totalFiles := (s.files ++ valid).take 2
    { files := totalFiles, previews := s.previews
      pending := s.pending ++ [totalFiles] }
  | .finishBatch i =>
    match s.pending.get? i with
    | none => s
    | some captured =>
      { files := s.files
        previews := captured.map generateFilePreview
        pending := s.pending.eraseIdx i }
  | .remove index =>
    { files := filterIdxNe index s.files
      previews := filterIdxNe index s.previews
      pending := s.pending }

/-- Run a list of UI events from a state. -/
def runUiEvents {File Preview : Type}
    (generateFilePreview : File → Preview) (s : AsyncState File Preview)
    (es : List (UiEvent File)) : AsyncState File Preview :=
  es.foldl (asyncStep generateFilePreview) s

/-!
Concrete instantiations used by the witnesses: files and previews are
natural numbers, the preview of a file `n` is `n + 100`, odd files fail
validation. -/

/-- Concrete validation oracle: even files are valid, odd files are
rejected with a fixed reason. -/
def exValidate : ValidationOracle Nat := fun n =>
  if n % 2 = 0 then none else some "Please upload a PNG or JPEG image"

/-- Concrete preview generator. -/
def exPreview : Nat → Nat := fun n => n + 100

/-- Concrete upload oracle that always succeeds. -/
def exUpload : Nat → Except JsError String := fun n =>
  if n = 5 then .ok "u5" else .ok "u7"

/-- Concrete upload oracle where the upload of file `7` (the second
attachment of `exTwoState`) rejects with an `Error` object. -/
def exUploadFail : Nat → Except JsError String := fun n =>
  if n = 7 then .error (.errObj "Upload failed") else .ok "u5"

/-- Concrete handler that always succeeds. -/
def exOnGenerate : GenerateCall → Except JsError Unit := fun _ => .ok ()

/-- A fresh composer state: non-empty prompt, no attachments. -/
def exEmptyState : ModalState Nat Nat :=
  { prompt := "hi", uploadedFiles := [], previews := [], showPreview := none
    isGenerating := false, fileInputValue := "" }

/-- A composer state holding two attachments with matching previews. -/
def exTwoState : ModalState Nat Nat :=
  { prompt := "hi", uploadedFiles := [5, 7], previews := [105, 107]
    showPreview := some 0, isGenerating := false, fileInputValue := "f" }

/-- A composer state whose prompt is whitespace only. -/
def exBlankState : ModalState Nat Nat :=
  { prompt := "   ", uploadedFiles := [5], previews := [105]
    showPreview := none, isGenerating := false, fileInputValue := "" }

/-- A composer state with a submission already in flight. -/
def exBusyState : ModalState Nat Nat :=
  { prompt := "hi", uploadedFiles := [5], previews := [105]
    showPreview := none, isGenerating := true, fileInputValue := "" }

/-- The interleaving that exhibits the preview race: add one valid file,
remove it while its preview is still being generated, then let the
pending preview batch resolve. -/
def c6Trace : List (UiEvent Nat) :=
  [.startAdd [1], .remove 0, .finishBatch 0]

/-- The state reached by `c6Trace` from the empty composer. -/
def c6Final : AsyncState Nat Nat :=
  runUiEvents exPreview ⟨[], [], []⟩ c6Trace

/-!  Helper lemmas. -/

/-- `promiseAll` succeeds with exactly one URL per file. -/
theorem promiseAll_ok_length {File : Type}
    (upload : File → Except JsError String) :
    ∀ (fs : List File) (urls : List String),
      promiseAll upload fs = Except.ok urls → urls.length = fs.length
  | [], urls, h => by
    simp only [promiseAll] at h
    cases h
    rfl
  | f :: fs, urls, h => by
    simp only [promiseAll] at h
    cases hu : upload f with
    | error e => rw [hu] at h; cases h
    | ok u =>
      rw [hu] at h
      cases hr : promiseAll upload fs with
      | error e => rw [hr] at h; cases h
      | ok us =>
        rw [hr] at h
        cases h
        simp [promiseAll_ok_length upload fs us hr]

/-- After `handleFiles` on a non-null batch, the attachment list is the
old list followed by the batch's valid candidates, truncated to 2
entries (provided the invariant held before the call). -/
theorem handleFiles_some_uploadedFiles {File Preview : Type}
    (validate : ValidationOracle File) (gp : File → Preview)
    (s : ModalState File Preview) (fs : List File)
    (h : s.uploadedFiles.length ≤ 2) :
    (handleFiles validate gp s (some fs)).state.uploadedFiles
      = (s.uploadedFiles ++ fs.filter fun f => (validate f).isNone).take 2 := by
  simp only [handleFiles]
  split
  case isTrue hv =>
    rw [List.isEmpty_iff.mp hv, List.append_nil, List.take_of_length_le h]
  case isFalse hv => rfl

/-- Every `handleFiles` call preserves the bound of 2 attachments. -/
theorem handleFiles_length_le {File Preview : Type}
    (validate : ValidationOracle File) (gp : File → Preview)
    (s : ModalState File Preview) (b : Option (List File))
    (h : s.uploadedFiles.length ≤ 2) :
    (handleFiles validate gp s b).state.uploadedFiles.length ≤ 2 := by
  cases b with
  | none => simpa [handleFiles] using h
  | some fs =>
    rw [handleFiles_some_uploadedFiles validate gp s fs h, List.length_take]
    omega

/-- Any sequence of add-files operations preserves the bound of 2
attachments. -/
theorem addFilesSeq_length_le {File Preview : Type}
    (validate : ValidationOracle File) (gp : File → Preview) :
    ∀ (batches : List (Option (List File))) (s : ModalState File Preview),
      s.uploadedFiles.length ≤ 2 →
      (addFilesSeq validate gp s batches).uploadedFiles.length ≤ 2 := by
  intro batches
  induction batches with
  | nil => intro s h; exact h
  | cons b bs ih =>
    intro s h
    simp only [addFilesSeq, List.foldl_cons] at *
    exact ih _ (handleFiles_length_le validate gp s b h)

/-- `filterIdxNe` keeps every element when the index is out of range. -/
theorem filterIdxNe_of_out_of_range {α : Type} (index : Int) (xs : List α)
    (h : index < 0 ∨ (xs.length : Int) ≤ index) :
    filterIdxNe index xs = xs := by
  unfold filterIdxNe
  have hf : (xs.enum.filter fun p => (p.1 : Int) ≠ index) = xs.enum := by
    apply List.filter_eq_self.mpr
    rintro ⟨i, x⟩ hp
    have hlt : i < xs.length :=
      List.getElem?_eq_some.mp (List.mk_mem_enum_iff_getElem?.mp hp) |>.1
    simp only [decide_eq_true_eq]
    omega
  rw [hf, List.enum_map_snd]

/-!  Claims. -/

/-- C1: for every add-files call the resulting attachment list equals the
first 2 entries of the concatenation of the existing attachments with the
batch's valid candidates in arrival order, and hence over every sequence
of add-files operations (starting from a state satisfying the bound, such
as the reset state) the attachment count never exceeds 2. -/
theorem claim_C1 {File Preview : Type} (validate : ValidationOracle File)
    (gp : File → Preview) (s : ModalState File Preview)
    (h : s.uploadedFiles.length ≤ 2) :
    (∀ fs : List File,
        (handleFiles validate gp s (some fs)).state.uploadedFiles
          = (s.uploadedFiles ++ fs.filter fun f => (validate f).isNone).take 2)
    ∧ ∀ batches : List (Option (List File)),
        (addFilesSeq validate gp s batches).uploadedFiles.length ≤ 2 :=
  ⟨fun fs => handleFiles_some_uploadedFiles validate gp s fs h,
   fun batches => addFilesSeq_length_le validate gp batches s h⟩

/-- C1 witness: a concrete batch of three valid files followed by more
batches still leaves at most 2 attachments. -/
theorem claim_C1_witness :
    (handleFiles exValidate exPreview exEmptyState
        (some [2, 3, 4])).state.uploadedFiles
      = (exEmptyState.uploadedFiles
          ++ [2, 3, 4].filter fun f => (exValidate f).isNone).take 2
    ∧ (addFilesSeq exValidate exPreview exEmptyState
        [some [2, 3, 4], none, some [6]]).uploadedFiles.length ≤ 2 :=
  ⟨(claim_C1 exValidate exPreview exEmptyState (by decide)).1 [2, 3, 4],
   (claim_C1 exValidate exPreview exEmptyState (by decide)).2
     [some [2, 3, 4], none, some [6]]⟩

/-- C7: every candidate failing validation produces one toast carrying
its reason, in batch order, while the valid candidates of the same batch
are still appended (subject to the 2-entry truncation) — invalid files
never abort the batch. -/
theorem claim_C7 {File Preview : Type} (validate : ValidationOracle File)
    (gp : File → Preview) (s : ModalState File Preview) (fs : List File)
    (h : s.uploadedFiles.length ≤ 2) :
    (handleFiles validate gp s (some fs)).toasts
      = fs.filterMap (fun f => (validate f).map fun e =>
          Toast.mk "Invalid file" e "destructive" 4000)
    ∧ (handleFiles validate gp s (some fs)).state.uploadedFiles
      = (s.uploadedFiles ++ fs.filter fun f => (validate f).isNone).take 2 := by
  refine ⟨?_, handleFiles_some_uploadedFiles validate gp s fs h⟩
  simp only [handleFiles]
  split <;> rfl

/-- C7 witness: a batch with one invalid file (3) and two valid ones
(2, 4) fires exactly one toast with the reason and still adds the valid
files. -/
theorem claim_C7_witness :
    (handleFiles exValidate exPreview exEmptyState (some [2, 3, 4])).toasts
      = [2, 3, 4].filterMap (fun f => (exValidate f).map fun e =>
          Toast.mk "Invalid file" e "destructive" 4000)
    ∧ (handleFiles exValidate exPreview exEmptyState
        (some [2, 3, 4])).state.uploadedFiles
      = (exEmptyState.uploadedFiles
          ++ [2, 3, 4].filter fun f => (exValidate f).isNone).take 2 :=
  claim_C7 exValidate exPreview exEmptyState [2, 3, 4] (by decide)

/-- C8: the free-tier rate limiter is a fixed-window limiter allowing
exactly 3 operations per 7-day window. -/
theorem claim_C8 :
    freeTierRateLimit.algorithm = LimiterAlgorithm.fixedWindow
    ∧ freeTierRateLimit.tokens = 3
    ∧ freeTierRateLimit.windowSeconds = 7 * 24 * 60 * 60 := by decide

/-- C9: `handleGenerate` never touches the attachment list, the preview
list or the prompt — in particular a failed submission leaves the
selected attachments and previews exactly as they were. -/
theorem claim_C9 {File Preview : Type}
    (upload : File → Except JsError String)
    (onGenerate : GenerateCall → Except JsError Unit)
    (s : ModalState File Preview) :
    (handleGenerate upload onGenerate s).state.uploadedFiles
        = s.uploadedFiles
    ∧ (handleGenerate upload onGenerate s).state.previews = s.previews
    ∧ (handleGenerate upload onGenerate s).state.prompt = s.prompt := by
  simp only [handleGenerate]
  split
  · exact ⟨rfl, rfl, rfl⟩
  · split
    · exact ⟨rfl, rfl, rfl⟩
    · split <;> exact ⟨rfl, rfl, rfl⟩

/-- C10: `removeFile` is total in the index: it always closes the
preview viewer and clears the file-input control, and an out-of-range
index leaves the attachment and preview lists unchanged. -/
theorem claim_C10 {File Preview : Type} (index : Int)
    (s : ModalState File Preview) :
    (removeFile index s).showPreview = none
    ∧ (removeFile index s).fileInputValue = ""
    ∧ ((index < 0 ∨ (s.uploadedFiles.length : Int) ≤ index) →
        (removeFile index s).uploadedFiles = s.uploadedFiles)
    ∧ ((index < 0 ∨ (s.previews.length : Int) ≤ index) →
        (removeFile index s).previews = s.previews) :=
  ⟨rfl, rfl,
   fun h => filterIdxNe_of_out_of_range index s.uploadedFiles h,
   fun h => filterIdxNe_of_out_of_range index s.previews h⟩

/-- C10 witness: removing index 5 from a 2-attachment state changes
neither list, closes the viewer and clears the input. -/
theorem claim_C10_witness :
    (removeFile 5 exTwoState).showPreview = none
    ∧ (removeFile 5 exTwoState).fileInputValue = ""
    ∧ (removeFile 5 exTwoState).uploadedFiles = exTwoState.uploadedFiles
    ∧ (removeFile 5 exTwoState).previews = exTwoState.previews :=
  ⟨(claim_C10 5 exTwoState).1, (claim_C10 5 exTwoState).2.1,
   (claim_C10 5 exTwoState).2.2.1 (by decide),
   (claim_C10 5 exTwoState).2.2.2 (by decide)⟩

/-- C6: the preview/attachment correspondence is violated by the code.
Adding one valid file, removing it while its preview computation is
pending, and letting the pending batch resolve leaves `previews = [101]`
while the attachment list is empty — the superseded batch overwrote the
newer list's previews, even at quiescence (no pending work left). -/
theorem claim_C6_race :
    c6Final.files = [] ∧ c6Final.pending = [] ∧ c6Final.previews = [101]
    ∧ c6Final.previews ≠ c6Final.files.map exPreview := by decide

/-- C2: with a non-empty trimmed prompt and all uploads succeeding, the
handler is invoked exactly once with the given prompt; `characterUrls` is
the upload-result URLs in attachment order (one per attachment) when at
least one attachment is present, and omitted (`none`) when the URL list
is empty — in particular whenever there are zero attachments. -/
theorem claim_C2 {File Preview : Type}
    (upload : File → Except JsError String)
    (onGenerate : GenerateCall → Except JsError Unit)
    (s : ModalState File Preview) (urls : List String)
    (hp : jsTrim s.prompt ≠ "")
    (hu : promiseAll upload s.uploadedFiles = Except.ok urls) :
    (handleGenerate upload onGenerate s).handlerCalls
        = [⟨s.prompt, if urls.length > 0 then some urls else none⟩]
    ∧ urls.length = s.uploadedFiles.length := by
  refine ⟨?_, promiseAll_ok_length upload s.uploadedFiles urls hu⟩
  unfold handleGenerate
  rw [if_neg hp, hu]
  cases hg : onGenerate ⟨s.prompt, if urls.length > 0 then some urls
      else none⟩ <;>
    simp [hg]

/-- C2 witness: two attachments yield one handler call with both URLs in
order; the hypothesis side also fixes the URL count to the attachment
count. -/
theorem claim_C2_witness :
    (handleGenerate exUpload exOnGenerate exTwoState).handlerCalls
        = [⟨exTwoState.prompt,
            if (["u5", "u7"] : List String).length > 0 then some ["u5", "u7"]
            else none⟩]
    ∧ (["u5", "u7"] : List String).length
        = exTwoState.uploadedFiles.length :=
  claim_C2 exUpload exOnGenerate exTwoState ["u5", "u7"] (by decide) rfl

/-- C3: with a non-empty trimmed prompt, if any upload rejects the
handler is never invoked, and on any failure (upload or handler
rejection) `isGenerating` returns to `false` and one destructive toast is
fired whose description is the thrown `Error`'s own message when
available and the generic fallback otherwise. -/
theorem claim_C3 {File Preview : Type}
    (upload : File → Except JsError String)
    (onGenerate : GenerateCall → Except JsError Unit)
    (s : ModalState File Preview) (hp : jsTrim s.prompt ≠ "") :
    (∀ e : JsError, promiseAll upload s.uploadedFiles = Except.error e →
        (handleGenerate upload onGenerate s).handlerCalls = []
        ∧ (handleGenerate upload onGenerate s).state.isGenerating = false
        ∧ (handleGenerate upload onGenerate s).toasts
            = [Toast.mk "Generation failed" (errorDescription e)
                "destructive" 4000])
    ∧ (∀ (urls : List String) (e : JsError),
        promiseAll upload s.uploadedFiles = Except.ok urls →
        onGenerate ⟨s.prompt, if urls.length > 0 then some urls else none⟩
            = Except.error e →
        (handleGenerate upload onGenerate s).state.isGenerating = false
        ∧ (handleGenerate upload onGenerate s).toasts
            = [Toast.mk "Generation failed" (errorDescription e)
                "destructive" 4000])
    ∧ (∀ m : String, errorDescription (JsError.errObj m) = m)
    ∧ errorDescription JsError.nonError
        = "Failed to generate page. Please try again." := by
  refine ⟨?_, ?_, fun m => rfl, rfl⟩
  · intro e he
    unfold handleGenerate
    rw [if_neg hp, he]
    exact ⟨rfl, rfl, rfl⟩
  · intro urls e hu hg
    unfold handleGenerate
    rw [if_neg hp, hu]
    simp [hg]

/-- C3 witness: with two attachments where the second upload rejects with
an `Error` carrying a message, the handler is not invoked, the state is
idle again and the toast carries that message. -/
theorem claim_C3_witness :
    (handleGenerate exUploadFail exOnGenerate exTwoState).handlerCalls = []
    ∧ (handleGenerate exUploadFail exOnGenerate
        exTwoState).state.isGenerating = false
    ∧ (handleGenerate exUploadFail exOnGenerate exTwoState).toasts
        = [Toast.mk "Generation failed"
            (errorDescription (JsError.errObj "Upload failed"))
            "destructive" 4000] :=
  (claim_C3 exUploadFail exOnGenerate exTwoState (by decide)).1
    (JsError.errObj "Upload failed") rfl

/-- C4 counterexample: from an idle state with a non-empty prompt, with
every upload and the handler succeeding, `handleGenerate` does not bring
the submission state back to idle — `isGenerating` stays `true` (the
success path has no reset). -/
theorem claim_C4_counterexample :
    ¬ (handleGenerate exUpload exOnGenerate
        exTwoState).state.isGenerating = false := by decide

/-- C4 (amended): when all uploads and the handler succeed, the
submission state remains in-flight (`isGenerating = true`); it becomes
idle again only through the reset effect that runs when the composer next
opens. -/
theorem claim_C4_amended {File Preview : Type}
    (upload : File → Except JsError String)
    (onGenerate : GenerateCall → Except JsError Unit)
    (s : ModalState File Preview) (urls : List String)
    (hp : jsTrim s.prompt ≠ "")
    (hu : promiseAll upload s.uploadedFiles = Except.ok urls)
    (hg : onGenerate ⟨s.prompt, if urls.length > 0 then some urls else none⟩
        = Except.ok ()) :
    (handleGenerate upload onGenerate s).state.isGenerating = true
    ∧ ∀ (m : Bool) (t : String),
        (resetOnOpen m t
          (handleGenerate upload onGenerate s).state).isGenerating
          = false := by
  refine ⟨?_, fun m t => rfl⟩
  unfold handleGenerate
  rw [if_neg hp, hu]
  simp [hg]

/-- C4 witness: the amended statement at a fully successful concrete
submission. -/
theorem claim_C4_amended_witness :
    (handleGenerate exUpload exOnGenerate exTwoState).state.isGenerating
        = true
    ∧ ∀ (m : Bool) (t : String),
        (resetOnOpen m t
          (handleGenerate exUpload exOnGenerate
            exTwoState).state).isGenerating = false :=
  claim_C4_amended exUpload exOnGenerate exTwoState ["u5", "u7"]
    (by decide) rfl rfl

/-- C5: submitting is a no-op — the state is untouched, no upload is
started and the handler is not invoked — when the trimmed prompt is
empty (`handleGenerate` returns at once), and likewise when a submission
is already in flight, through both user-level entry points: the submit
button (disabled while generating) and the keyboard shortcut (its
callback checks the in-flight flag). -/
theorem claim_C5 {File Preview : Type}
    (upload : File → Except JsError String)
    (onGenerate : GenerateCall → Except JsError Unit)
    (isOpen : Bool) (s : ModalState File Preview) :
    (jsTrim s.prompt = "" →
        handleGenerate upload onGenerate s = ⟨s, [], [], []⟩)
    ∧ (s.isGenerating = true →
        submitViaButton upload onGenerate s = ⟨s, [], [], []⟩
        ∧ submitViaShortcut upload onGenerate isOpen s = ⟨s, [], [], []⟩) := by
  constructor
  · intro hp
    unfold handleGenerate
    rw [if_pos hp]
  · intro hb
    constructor
    · unfold submitViaButton
      rw [if_pos (Or.inr (by rw [hb]))]
    · unfold submitViaShortcut
      rw [if_neg (by simp [hb])]

/-- C5 witness: a whitespace-only prompt makes `handleGenerate` a no-op,
and with a submission in flight both the button and the shortcut are
no-ops. -/
theorem claim_C5_witness :
    handleGenerate exUpload exOnGenerate exBlankState
        = ⟨exBlankState, [], [], []⟩
    ∧ submitViaButton exUpload exOnGenerate exBusyState
        = ⟨exBusyState, [], [], []⟩
    ∧ submitViaShortcut exUpload exOnGenerate true exBusyState
        = ⟨exBusyState, [], [], []⟩ :=
  ⟨(claim_C5 exUpload exOnGenerate true exBlankState).1 (by decide),
   ((claim_C5 exUpload exOnGenerate true exBusyState).2 rfl).1,
   ((claim_C5 exUpload exOnGenerate true exBusyState).2 rfl).2⟩
